import Mathlib

/-!
Shallow embedding of the OBD-II telemetry engine of `carHUD`
(`src/src/components/CompassHUD.tsx`, class `OBDService`), together with
proofs about the claims of the specification.

Modelling conventions:
* JavaScript strings are embedded as `List Char`; `String.replace`,
  `substring`, `split`, `trim`, `startsWith` and `toUpperCase` are embedded
  as the corresponding list operations.
* JavaScript numbers are embedded as `JsNum := Option ℚ`: `none` is `NaN`
  and `some q` an exact numeric value.  Every arithmetic operation the
  source performs (integer parsing, `+ - * /`, `Math.round`) is exact on
  the rationals involved, so ℚ is a faithful value domain; `NaN`
  propagation of JavaScript arithmetic is modelled by `Option` strictness.
* All embedded functions are total; JavaScript exceptions do not occur in
  any of the modelled code paths (`parseInt` and `Math.round` never throw),
  so totality is the correct model.
* Rational arithmetic is routed through `Rat.divInt` so that every
  definition is kernel-reducible (the `Rat.add/mul/sub` wrappers of the
  library are `irreducible`); the bridge lemmas below prove the routed
  operations equal to the standard ones.
-/

/-- Exact rational of a natural number, kernel-reducible. -/
def qOfNat (n : Nat) : ℚ := Rat.divInt (Int.ofNat n) 1

/-- Kernel-reducible rational addition. -/
def qadd (a b : ℚ) : ℚ :=
  Rat.divInt (a.num * (b.den : ℤ) + b.num * (a.den : ℤ)) ((a.den : ℤ) * (b.den : ℤ))

/-- Kernel-reducible rational subtraction. -/
def qsub (a b : ℚ) : ℚ :=
  Rat.divInt (a.num * (b.den : ℤ) - b.num * (a.den : ℤ)) ((a.den : ℤ) * (b.den : ℤ))

/-- Kernel-reducible rational multiplication. -/
def qmul (a b : ℚ) : ℚ := Rat.divInt (a.num * b.num) ((a.den : ℤ) * (b.den : ℤ))

/-- Kernel-reducible rational division. -/
def qdiv (a b : ℚ) : ℚ := Rat.divInt (a.num * (b.den : ℤ)) ((a.den : ℤ) * b.num)

/-- JavaScript `Math.round`: round half toward positive infinity,
`⌊q + 1/2⌋`, implemented with floor division so it kernel-reduces. -/
def qround (q : ℚ) : ℚ :=
  let h := qadd q (Rat.divInt 1 2)
  Rat.divInt (Int.fdiv h.num (h.den : ℤ)) 1

theorem qOfNat_eq (n : Nat) : qOfNat n = (n : ℚ) := by
  simp [qOfNat, Rat.divInt_eq_div]

theorem qadd_eq (a b : ℚ) : qadd a b = a + b := by
  have ha : ((a.den : ℤ)) ≠ 0 := Int.natCast_ne_zero.mpr a.den_nz
  have hb : ((b.den : ℤ)) ≠ 0 := Int.natCast_ne_zero.mpr b.den_nz
  rw [qadd, ← Rat.divInt_add_divInt _ _ ha hb, Rat.num_divInt_den, Rat.num_divInt_den]

theorem qsub_eq (a b : ℚ) : qsub a b = a - b := by
  have ha : ((a.den : ℤ)) ≠ 0 := Int.natCast_ne_zero.mpr a.den_nz
  have hb : ((b.den : ℤ)) ≠ 0 := Int.natCast_ne_zero.mpr b.den_nz
  rw [qsub, ← Rat.divInt_sub_divInt _ _ ha hb, Rat.num_divInt_den, Rat.num_divInt_den]

theorem qmul_eq (a b : ℚ) : qmul a b = a * b := by
  rw [qmul, ← Rat.divInt_mul_divInt', Rat.num_divInt_den, Rat.num_divInt_den]

theorem qdiv_eq (a b : ℚ) : qdiv a b = a / b := by
  rw [qdiv, ← Rat.divInt_div_divInt, Rat.num_divInt_den, Rat.num_divInt_den]

theorem qround_eq (q : ℚ) : qround q = (⌊q + 1/2⌋ : ℤ) := by
  have h2 : qadd q (Rat.divInt 1 2) = q + 1/2 := by
    rw [qadd_eq]
    norm_num [Rat.divInt_eq_div]
  rw [qround, h2, Rat.divInt_eq_div]
  have hfd : Int.fdiv (q + 1/2).num ((q + 1/2).den : ℤ) = ⌊q + 1/2⌋ := by
    rw [Int.fdiv_eq_ediv _ (Int.natCast_nonneg _), ← Rat.floor_def]
  rw [hfd]
  norm_num

/-- JavaScript numbers as used by the decoder: `none` is `NaN`. -/
abbrev JsNum := Option ℚ

instance : Add JsNum :=
  ⟨fun x y => match x, y with
    | some a, some b => some (qadd a b)
    | _, _ => none⟩

instance : Sub JsNum :=
  ⟨fun x y => match x, y with
    | some a, some b => some (qsub a b)
    | _, _ => none⟩

instance : Mul JsNum :=
  ⟨fun x y => match x, y with
    | some a, some b => some (qmul a b)
    | _, _ => none⟩

instance : Div JsNum :=
  ⟨fun x y => match x, y with
    | some a, some b => some (qdiv a b)
    | _, _ => none⟩

instance : Neg JsNum := ⟨fun x => match x with
  | some a => some (qsub (qOfNat 0) a)
  | none => none⟩

instance (n : Nat) : OfNat JsNum n := ⟨some (qOfNat n)⟩

/-- JavaScript `Math.round`, lifted to `JsNum` (`Math.round NaN = NaN`). -/
def jround (x : JsNum) : JsNum := x.map qround

/-- Characters matched by the source's whitespace regex `[\s\r\n]`
(restricted to the ASCII whitespace class; every string the protocol
handles is ASCII). -/
def isJsSpace (c : Char) : Bool :=
  c = ' ' || c = '\t' || c = '\n' || c = '\r' || c = '\x0b' || c = '\x0c'

/-- Value of one hexadecimal digit, as JavaScript `parseInt(·, 16)`
accepts them (both cases). -/
def hexDigitVal (c : Char) : Option Nat :=
  if '0' ≤ c ∧ c ≤ '9' then some (c.toNat - 48)
  else if 'A' ≤ c ∧ c ≤ 'F' then some (c.toNat - 55)
  else if 'a' ≤ c ∧ c ≤ 'f' then some (c.toNat - 87)
  else none

/-- Accumulating loop of `parseInt(s, 16)`: consume the longest prefix of
hex digits. -/
def jsParseIntHexAux : List Char → Nat → Nat
  | [], acc => acc
  | c :: rest, acc =>
    match hexDigitVal c with
    | some v => jsParseIntHexAux rest (16 * acc + v)
    | none => acc

/-- JavaScript `parseInt(s, 16)`: skip leading whitespace, accept an
optional sign and an optional `0x`/`0X` prefix, then read the longest
prefix of hex digits; `NaN` when no digit is read. -/
def jsParseIntHex (s : List Char) : JsNum :=
  let core : List Char → JsNum := fun t =>
    let t' := match t with
      | '0' :: x :: rest => if x = 'x' ∨ x = 'X' then rest else '0' :: x :: rest
      | other => other
    match t' with
    | c :: rest =>
      match hexDigitVal c with
      | some v => some (qOfNat (jsParseIntHexAux rest v))
      | none => none
    | [] => none
  match s.dropWhile isJsSpace with
  | '-' :: rest => - core rest
  | '+' :: rest => core rest
  | other => core other

/-- The decoded telemetry snapshot (`OBDData` of the source).  Each numeric
field is a JavaScript number. -/
structure OBDData where
  rpm : JsNum
  speed : JsNum
  coolantTemp : JsNum
  engineLoad : JsNum
  throttlePosition : JsNum
  fuelLevel : JsNum
  fuelRate : JsNum
  fuelPressure : JsNum
  intakeAirTemp : JsNum
  boostPressure : JsNum
  mafRate : JsNum
  barometricPressure : JsNum
  oilTemp : JsNum
  ambientTemp : JsNum
  actualTorque : JsNum
  referenceTorque : JsNum
  acceleratorPosition : JsNum
  egrCommanded : JsNum
  egrError : JsNum
  batteryVoltage : JsNum
  runTime : JsNum
  isConnected : Bool
  deviceName : List Char
deriving DecidableEq, Repr

/-- `INITIAL_OBD_DATA` of the source: every numeric field zero, not
connected, empty device name. -/
def INITIAL_OBD_DATA : OBDData :=
  { rpm := 0
    speed := 0
    coolantTemp := 0
    engineLoad := 0
    throttlePosition := 0
    fuelLevel := 0
    fuelRate := 0
    fuelPressure := 0
    intakeAirTemp := 0
    boostPressure := 0
    mafRate := 0
    barometricPressure := 0
    oilTemp := 0
    ambientTemp := 0
    actualTorque := 0
    referenceTorque := 0
    acceleratorPosition := 0
    egrCommanded := 0
    egrError := 0
    batteryVoltage := 0
    runTime := 0
    isConnected := false
    deviceName := [] }

/-- The cleaning step of `parseOBDResponse`:
`response.replace(/[\s\r\n]/g, '').toUpperCase()`. -/
def cleanResp (response : List Char) : List Char :=
  (response.filter (fun c => !isJsSpace c)).map Char.toUpper

/-- The validity check of `parseOBDResponse`: `clean.startsWith('41')`. -/
def startsWith41 (clean : List Char) : Bool :=
  List.isPrefixOf ['4', '1'] clean

/-- Helper of the source: parse a single byte as a percentage,
`Math.round(parseInt(hex, 16) * 100 / 255)`. -/
def parsePercent (hex : List Char) : JsNum :=
  jround (jsParseIntHex hex * 100 / 255)

/-- Helper of the source: parse a single byte with temperature offset,
`parseInt(hex, 16) - 40`. -/
def parseTemp (hex : List Char) : JsNum :=
  jsParseIntHex hex - 40

/-- Helper of the source: parse two bytes big-endian,
`256 * parseInt(hex.substring(0,2), 16) + parseInt(hex.substring(2,4), 16)`. -/
def parseTwoBytes (hex : List Char) : JsNum :=
  256 * jsParseIntHex (hex.take 2) + jsParseIntHex ((hex.drop 2).take 2)

/-- Enumeration of the numeric snapshot fields (the assignment targets of
the PID switch). -/
inductive FieldId where
  | rpm | speed | coolantTemp | engineLoad | throttlePosition
  | fuelLevel | fuelRate | fuelPressure
  | intakeAirTemp | boostPressure | mafRate | barometricPressure
  | oilTemp | ambientTemp
  | actualTorque | referenceTorque
  | acceleratorPosition | egrCommanded | egrError
  | batteryVoltage | runTime
deriving DecidableEq, Repr

/-- Read one numeric field of the snapshot. -/
def fieldVal (d : OBDData) : FieldId → JsNum
  | .rpm => d.rpm
  | .speed => d.speed
  | .coolantTemp => d.coolantTemp
  | .engineLoad => d.engineLoad
  | .throttlePosition => d.throttlePosition
  | .fuelLevel => d.fuelLevel
  | .fuelRate => d.fuelRate
  | .fuelPressure => d.fuelPressure
  | .boostPressure => d.boostPressure
  | .mafRate => d.mafRate
  | .intakeAirTemp => d.intakeAirTemp
  | .barometricPressure => d.barometricPressure
  | .oilTemp => d.oilTemp
  | .ambientTemp => d.ambientTemp
  | .actualTorque => d.actualTorque
  | .referenceTorque => d.referenceTorque
  | .acceleratorPosition => d.acceleratorPosition
  | .egrCommanded => d.egrCommanded
  | .egrError => d.egrError
  | .batteryVoltage => d.batteryVoltage
  | .runTime => d.runTime

/-- Write one numeric field of the snapshot (the assignment
`this.data.<field> = …` of the corresponding switch case). -/
def setField (d : OBDData) (f : FieldId) (v : JsNum) : OBDData :=
  match f with
  | .rpm => { d with rpm := v }
  | .speed => { d with speed := v }
  | .coolantTemp => { d with coolantTemp := v }
  | .engineLoad => { d with engineLoad := v }
  | .throttlePosition => { d with throttlePosition := v }
  | .fuelLevel => { d with fuelLevel := v }
  | .fuelRate => { d with fuelRate := v }
  | .fuelPressure => { d with fuelPressure := v }
  | .boostPressure => { d with boostPressure := v }
  | .mafRate => { d with mafRate := v }
  | .intakeAirTemp => { d with intakeAirTemp := v }
  | .barometricPressure => { d with barometricPressure := v }
  | .oilTemp => { d with oilTemp := v }
  | .ambientTemp => { d with ambientTemp := v }
  | .actualTorque => { d with actualTorque := v }
  | .referenceTorque => { d with referenceTorque := v }
  | .acceleratorPosition => { d with acceleratorPosition := v }
  | .egrCommanded => { d with egrCommanded := v }
  | .egrError => { d with egrError := v }
  | .batteryVoltage => { d with batteryVoltage := v }
  | .runTime => { d with runTime := v }

/-- The case label of the PID switch that targets a given field. -/
def pidOfField : FieldId → List Char
  | .rpm => ['0', 'C']
  | .speed => ['0', 'D']
  | .coolantTemp => ['0', '5']
  | .engineLoad => ['0', '4']
  | .throttlePosition => ['1', '1']
  | .fuelLevel => ['2', 'F']
  | .fuelRate => ['5', 'E']
  | .fuelPressure => ['0', 'A']
  | .boostPressure => ['0', 'B']
  | .mafRate => ['1', '0']
  | .intakeAirTemp => ['0', 'F']
  | .barometricPressure => ['3', '3']
  | .oilTemp => ['5', 'C']
  | .ambientTemp => ['4', '6']
  | .actualTorque => ['6', '2']
  | .referenceTorque => ['6', '3']
  | .acceleratorPosition => ['4', '9']
  | .egrCommanded => ['2', 'C']
  | .egrError => ['2', 'D']
  | .batteryVoltage => ['4', '2']
  | .runTime => ['1', 'F']

/-- The payload-length guard of the switch case targeting a field: the
number of payload hex characters the source requires before it assigns the
field. -/
def lenOfField : FieldId → Nat
  | .rpm => 4
  | .speed => 2
  | .coolantTemp => 2
  | .engineLoad => 2
  | .throttlePosition => 2
  | .fuelLevel => 2
  | .fuelRate => 4
  | .fuelPressure => 2
  | .boostPressure => 2
  | .mafRate => 4
  | .intakeAirTemp => 2
  | .barometricPressure => 2
  | .oilTemp => 2
  | .ambientTemp => 2
  | .actualTorque => 2
  | .referenceTorque => 4
  | .acceleratorPosition => 2
  | .egrCommanded => 2
  | .egrError => 2
  | .batteryVoltage => 4
  | .runTime => 4

/-- The right-hand side of the assignment of the switch case targeting a
field: the decoded value as a function of the payload characters (the
comment on each line is the source's own formula comment). -/
def decodeField (f : FieldId) (dataBytes : List Char) : JsNum :=
  match f with
  | .rpm => jround (parseTwoBytes dataBytes / 4)
  | .speed => jsParseIntHex (dataBytes.take 2)
  | .coolantTemp => parseTemp (dataBytes.take 2)
  | .engineLoad => parsePercent (dataBytes.take 2)
  | .throttlePosition => parsePercent (dataBytes.take 2)
  | .fuelLevel => parsePercent (dataBytes.take 2)
  | .fuelRate => jround (parseTwoBytes dataBytes / 20 * 10) / 10
  | .fuelPressure => jsParseIntHex (dataBytes.take 2) * 3
  | .boostPressure => jsParseIntHex (dataBytes.take 2)
  | .mafRate => jround (parseTwoBytes dataBytes / 100 * 10) / 10
  | .intakeAirTemp => parseTemp (dataBytes.take 2)
  | .barometricPressure => jsParseIntHex (dataBytes.take 2)
  | .oilTemp => parseTemp (dataBytes.take 2)
  | .ambientTemp => parseTemp (dataBytes.take 2)
  | .actualTorque => jsParseIntHex (dataBytes.take 2) - 125
  | .referenceTorque => parseTwoBytes dataBytes
  | .acceleratorPosition => parsePercent (dataBytes.take 2)
  | .egrCommanded => parsePercent (dataBytes.take 2)
  | .egrError => jround ((jsParseIntHex (dataBytes.take 2) - 128) * 100 / 128)
  | .batteryVoltage => jround (parseTwoBytes dataBytes / 100) / 10
  | .runTime => parseTwoBytes dataBytes

/-- Which case of the `switch (pid)` fires: the source's `switch`
dispatches on string equality of the two PID characters against the case
labels; `none` is its (implicit) default. -/
def pidTargets (pid : List Char) : Option FieldId :=
  if pid = ['0', 'C'] then some .rpm
  else if pid = ['0', 'D'] then some .speed
  else if pid = ['0', '5'] then some .coolantTemp
  else if pid = ['0', '4'] then some .engineLoad
  else if pid = ['1', '1'] then some .throttlePosition
  else if pid = ['2', 'F'] then some .fuelLevel
  else if pid = ['5', 'E'] then some .fuelRate
  else if pid = ['0', 'A'] then some .fuelPressure
  else if pid = ['0', 'B'] then some .boostPressure
  else if pid = ['1', '0'] then some .mafRate
  else if pid = ['0', 'F'] then some .intakeAirTemp
  else if pid = ['3', '3'] then some .barometricPressure
  else if pid = ['5', 'C'] then some .oilTemp
  else if pid = ['4', '6'] then some .ambientTemp
  else if pid = ['6', '2'] then some .actualTorque
  else if pid = ['6', '3'] then some .referenceTorque
  else if pid = ['4', '9'] then some .acceleratorPosition
  else if pid = ['2', 'C'] then some .egrCommanded
  else if pid = ['2', 'D'] then some .egrError
  else if pid = ['4', '2'] then some .batteryVoltage
  else if pid = ['1', 'F'] then some .runTime
  else none

/-- The `switch (pid)` of `parseOBDResponse`: if some case matches the
PID, check that case's payload-length guard and, when it passes, assign
the case's decoded value to its target field; too-short payloads and
unknown PIDs leave the snapshot unchanged. -/
def decodePid (d : OBDData) (pid dataBytes : List Char) : OBDData :=
  match pidTargets pid with
  | some f => if lenOfField f ≤ dataBytes.length then setField d f (decodeField f dataBytes) else d
  | none => d

/-- `parseOBDResponse` of the source, as a pure snapshot transformer: clean
the response, discard it unless it starts with the Mode-01 reply prefix
`41`, otherwise decode `clean.substring(2,4)` as the PID against payload
`clean.substring(4)`.  (The source ends with `notifyListeners()`; the
distributor side is modelled separately by `svcParse` below.) -/
def parseOBDResponse (d : OBDData) (response : List Char) : OBDData :=
  if startsWith41 (cleanResp response) then
    decodePid d (((cleanResp response).drop 2).take 2) ((cleanResp response).drop 4)
  else d

/-! ## Frame assembler (`handleResponse`) -/

/-- JavaScript `split('>')` on the buffer: the segments between the prompt
terminators (`"a>b"` splits to `["a","b"]`, a trailing terminator yields a
final empty segment, exactly as in JavaScript). -/
def splitOnGt : List Char → List (List Char)
  | [] => [[]]
  | c :: rest =>
    if c = '>' then [] :: splitOnGt rest
    else
      match splitOnGt rest with
      | [] => [[c]]
      | h :: t => (c :: h) :: t

/-- JavaScript `includes('>')` on the buffer. -/
def containsGt (l : List Char) : Bool := l.any (fun c => c = '>')

/-- JavaScript `trim()`: strip whitespace from both ends. -/
def trimWS (l : List Char) : List Char :=
  ((l.dropWhile isJsSpace).reverse.dropWhile isJsSpace).reverse

/-- State of the frame assembler: the snapshot, the
`PendingResponseBuffer` (`responseBuffer` of the source), and the trace of
strings handed to the PID decoder (in order). -/
structure FrameState where
  data : OBDData
  responseBuffer : List Char
  decodeCalls : List (List Char)
deriving DecidableEq, Repr

/-- `handleResponse` of the source, over already base64-decoded chunk
text: append the chunk to the buffer; if the buffer now contains the
prompt terminator `>`, split at every terminator, hand each trimmed
segment to `parseOBDResponse`, and clear the buffer. -/
def handleResponse (s : FrameState) (chunk : List Char) : FrameState :=
  let buf := s.responseBuffer ++ chunk
  if containsGt buf then
    let lines := splitOnGt buf
    let s' := lines.foldl
      (fun st line =>
        { st with
          data := parseOBDResponse st.data (trimWS line)
          decodeCalls := st.decodeCalls ++ [trimWS line] })
      { s with responseBuffer := buf }
    { s' with responseBuffer := [] }
  else
    { s with responseBuffer := buf }

/-! ## Polling scheduler (`startPolling`) -/

/-- The priority PID request strings of the source (`priorityPids`). -/
def priorityPids : List (List Char) :=
  ["010C".toList, "010D".toList, "010B".toList, "0111".toList]

/-- The secondary PID request strings of the source (`secondaryPids`). -/
def secondaryPids : List (List Char) :=
  ["0105".toList, "015C".toList, "015E".toList, "012F".toList, "010F".toList,
   "0146".toList, "0162".toList, "012C".toList, "0142".toList]

/-- The scheduler's cursor state: `priorityIndex`, `secondaryIndex` and
`cycleCount` of `startPolling`. -/
structure SchedState where
  priorityIndex : Nat
  secondaryIndex : Nat
  cycleCount : Nat
deriving DecidableEq, Repr

/-- Initial cursor state (`let priorityIndex = 0`, …). -/
def schedInit : SchedState := ⟨0, 0, 0⟩

/-- One polling tick of `startPolling` (with the session connected): if
`cycleCount % 5 === 4 && secondaryPids.length > 0`, query the next
secondary PID and advance that cyclic cursor, else query the next priority
PID and advance that cursor; either way increment `cycleCount`.  Returns
the PID queried.  The queues are the configuration parameters `prio` and
`sec`. -/
def schedTick (prio sec : List α) (s : SchedState) : Option α × SchedState :=
  if s.cycleCount % 5 = 4 ∧ 0 < sec.length then
    (sec.get? s.secondaryIndex,
     { s with
        secondaryIndex := (s.secondaryIndex + 1) % sec.length
        cycleCount := s.cycleCount + 1 })
  else
    (prio.get? s.priorityIndex,
     { s with
        priorityIndex := (s.priorityIndex + 1) % prio.length
        cycleCount := s.cycleCount + 1 })

/-- Cursor state reached after `n` ticks from the initial state. -/
def schedRun (prio sec : List α) : Nat → SchedState
  | 0 => schedInit
  | n + 1 => (schedTick prio sec (schedRun prio sec n)).2

/-- The PID queried at tick `n` (ticks counted from 0). -/
def queryAt (prio sec : List α) (n : Nat) : Option α :=
  (schedTick prio sec (schedRun prio sec n)).1

/-- The branch condition of tick `n`: whether the tick draws from the
secondary queue. -/
def usesSecondary (prio sec : List α) (n : Nat) : Bool :=
  decide ((schedRun prio sec n).cycleCount % 5 = 4 ∧ 0 < sec.length)

/-- The queries issued over the first `n` ticks, in order. -/
def pollTrace (prio sec : List α) (n : Nat) : List (Option α) :=
  (List.range n).map (queryAt prio sec)

/-! ## Telemetry store and distributor (`subscribe`, `notifyListeners`)

JavaScript object identity is modelled with an explicit heap of snapshot
cells: `heap` lists the allocated `OBDData` objects, `live` is the address
of the store's mutable snapshot (`this.data`), and every delivery to a
listener records the listener id together with the address of the object
it received.  `subscribe` passes `this.data` itself (the live address);
`notifyListeners` passes `{ ...this.data }` (a freshly allocated copy).
A listener callback can reassign `this.listeners` (that is all the
source's unsubscribe closure does), modelled by the `effect` parameter;
reassignment never mutates the array object a running `forEach` iterates,
so the iteration list is captured once. -/

structure Svc where
  heap : List OBDData
  live : Nat
  listeners : List Nat
  delivered : List (Nat × Nat)
deriving DecidableEq, Repr

/-- A fresh service: one snapshot cell holding `INITIAL_OBD_DATA`, no
listeners, nothing delivered. -/
def svcInit : Svc := ⟨[INITIAL_OBD_DATA], 0, [], []⟩

/-- The unsubscribe closure returned by `subscribe`:
`this.listeners = this.listeners.filter(l => l !== listener)`, as the
listener-field reassignment it performs. -/
def unsubscribeEffect (self : Nat) : List Nat → List Nat :=
  fun ls => ls.filter (fun x => x ≠ self)

/-- Delivery to one listener inside `notifyListeners`'s `forEach`:
allocate the copy `{ ...this.data }`, record its delivery, then run the
listener body, which may reassign the listener field. -/
def notifyStep (effect : Nat → List Nat → List Nat) (st : Svc) (l : Nat) : Svc :=
  { st with
      heap := st.heap ++ [st.heap.getD st.live INITIAL_OBD_DATA]
      delivered := st.delivered ++ [(l, st.heap.length)]
      listeners := effect l st.listeners }

/-- `notifyListeners` of the source:
`this.listeners.forEach(listener => listener({ ...this.data }))`.  The
`forEach` iterates the array object read from `this.listeners` when the
call starts; unsubscribing inside a callback replaces the field with a new
array and leaves that object untouched. -/
def notifyListeners (effect : Nat → List Nat → List Nat) (s : Svc) : Svc :=
  s.listeners.foldl (notifyStep effect) s

/-- `subscribe` of the source: push the listener, then invoke it
immediately with `this.data` — the live snapshot object itself, not a
copy. -/
def subscribe (s : Svc) (l : Nat) : Svc :=
  let s1 := { s with listeners := s.listeners ++ [l] }
  { s1 with delivered := s1.delivered ++ [(l, s1.live)] }

/-- The full `parseOBDResponse` call including its distribution side: on a
response that passes the `41`-prefix check, mutate the live snapshot in
place and then run `notifyListeners`; otherwise return early (no
notification). -/
def svcParse (effect : Nat → List Nat → List Nat) (s : Svc) (response : List Char) : Svc :=
  if startsWith41 (cleanResp response) then
    notifyListeners effect
      { s with
          heap := s.heap.set s.live
            (parseOBDResponse (s.heap.getD s.live INITIAL_OBD_DATA) response) }
  else
    s

/-! ## Session lifecycle (`disconnect`) -/

/-- The per-session connection state of `OBDService` that `disconnect`
touches: the snapshot, the connected device, the write characteristic and
the polling timer (each `Option` standing for the source's nullable
field). -/
structure SessionState where
  data : OBDData
  device : Option Nat
  writeCharacteristic : Option Nat
  pollingInterval : Option Nat
  responseBuffer : List Char
deriving DecidableEq, Repr

/-- `stopPolling` of the source: clear the interval if one is set. -/
def stopPolling (s : SessionState) : SessionState :=
  { s with pollingInterval := none }

/-- `disconnect` of the source: stop polling; if a device is connected,
cancel the connection (the transport's cancel always succeeds locally) and
null the device; null the write characteristic; reset the snapshot to a
fresh copy of `INITIAL_OBD_DATA`.  (The final `notifyListeners()` call
re-publishes the reset snapshot; it does not change session state.) -/
def disconnect (s : SessionState) : SessionState :=
  let s1 := stopPolling s
  let s2 :=
    match s1.device with
    | some _ => { s1 with device := none }
    | none => s1
  { s2 with writeCharacteristic := none, data := INITIAL_OBD_DATA }

/-! ## Adapter initialization (`initializeAdapter`) -/

/-- Externally visible events of the initialization sequence. -/
inductive InitEvent where
  | cmd (command : List Char)
  | settle (ms : Nat)
deriving DecidableEq, Repr

/-- Initialization failure taxonomy of the specification. -/
inductive InitError where
  | adapterInitFailed
deriving DecidableEq, Repr

/-- `sendCommand` during initialization: write the command (the transport
write is awaited, a response is not), producing exactly one write event. -/
def sendCommandEvents (command : List Char) : List InitEvent :=
  [InitEvent.cmd command]

/-- `initializeAdapter` of the source, as the event trace it produces
against an environment `responses` mapping each command index to the
response frame the adapter eventually sends (or `none` if it never
answers).  The source awaits only each write and a fixed 1000 ms delay
after the reset; it never reads a response and has no timeout or failure
path, so the result is independent of `responses` and always `Except.ok`. -/
def initializeAdapter (responses : Nat → Option (List Char)) :
    Except InitError (List InitEvent) :=
  let _ := responses
  Except.ok
    (sendCommandEvents ("ATZ".toList) ++ [InitEvent.settle 1000] ++
      sendCommandEvents ("ATE0".toList) ++ sendCommandEvents ("ATL0".toList) ++
      sendCommandEvents ("ATS0".toList) ++ sendCommandEvents ("ATH0".toList) ++
      sendCommandEvents ("ATSP0".toList))

/-! ## Per-PID byte-length expectation and snapshot fields -/

/-- The byte-length expectation the decoder declares for a PID: the
length guard of the switch case the PID dispatches to (`none` for a PID
the decoder does not know). -/
def expectedLen (pid : List Char) : Option Nat :=
  (pidTargets pid).map lenOfField

/-- A response string `r` successfully decodes field `f`: after cleaning
it starts with `41`, its PID characters are the field's PID, and its
payload passes the field's length guard. -/
def successfulDecode (r : List Char) (f : FieldId) : Prop :=
  startsWith41 (cleanResp r) = true ∧
  ((cleanResp r).drop 2).take 2 = pidOfField f ∧
  (∃ n, expectedLen (pidOfField f) = some n ∧ n ≤ ((cleanResp r).drop 4).length)

/-! ## Hex encoding of one byte (for stating the decode-formula theorems) -/

/-- Uppercase hex digit of a value below 16. -/
def toHexDigit (n : Nat) : Char :=
  if n < 10 then Char.ofNat (48 + n) else Char.ofNat (55 + n)

/-- Two-digit uppercase hex encoding of one byte. -/
def toHex2 (n : Nat) : List Char := [toHexDigit (n / 16), toHexDigit (n % 16)]

/-- A Mode-01 response carrying a single-byte payload. -/
def resp1 (pid : List Char) (a : Nat) : List Char :=
  ['4', '1'] ++ pid ++ toHex2 a

/-- A Mode-01 response carrying a two-byte payload. -/
def resp2 (pid : List Char) (a b : Nat) : List Char :=
  ['4', '1'] ++ pid ++ toHex2 a ++ toHex2 b

/-! ## The specification's four decode shapes (for claim C5)

Modelled from the spec: these four functions are the "four numeric
shapes" the specification lists for the decoder, written exactly as the
spec words them (C5 is a refinement claim comparing them with the
decoder's actual rules). -/

/-- Spec shape 1: single-byte linear percentage `round(byte * 100 / 255)`. -/
def specShapePercent (b : ℚ) : ℚ := qround (qdiv (qmul b (qOfNat 100)) (qOfNat 255))

/-- Spec shape 2: single-byte temperature `byte − 40`. -/
def specShapeTemp (b : ℚ) : ℚ := qsub b (qOfNat 40)

/-- Spec shape 3: two-byte big-endian `256*A + B` divided by a
PID-specific constant. -/
def specShapeTwoByte (a b k : ℚ) : ℚ := qdiv (qadd (qmul (qOfNat 256) a) b) k

/-- Spec shape 4: single-byte signed-offset percentage
`(byte − 128) * 100 / 128`. -/
def specShapeSigned (b : ℚ) : ℚ := qdiv (qmul (qsub b (qOfNat 128)) (qOfNat 100)) (qOfNat 128)

/-! ## Scheduler lemmas and claim C1 -/

theorem schedRun_cycleCount (prio sec : List α) (n : Nat) :
    (schedRun prio sec n).cycleCount = n := by
  induction n with
  | zero => rfl
  | succ n ih =>
    simp only [schedRun, schedTick]
    split <;> simp [ih]

/-- The tick sequence claim C1 asserts for priority queue `[A,B,C,D]` and
secondary queue `[E,F]` (with `A,…,F` numbered `0,…,5`):
`A,B,C,D,A,E,B,C,D,A`. -/
def claimedC1Trace : List (Option Nat) :=
  [some 0, some 1, some 2, some 3, some 0, some 4, some 1, some 2, some 3, some 0]

/-- Claim C1 is false as stated: with priority queue `[A,B,C,D]` and
secondary queue `[E,F]`, the scheduler's first ten ticks query
`A,B,C,D,E,A,B,C,D,F` — at tick 4 the code queries the secondary PID `E`
itself (the claim's listed sequence has priority `A` at tick 4, `E` only
at tick 5, and no `F` at all). -/
theorem c1_counterexample :
    pollTrace [0, 1, 2, 3] [4, 5] 10 =
      [some 0, some 1, some 2, some 3, some 4, some 0, some 1, some 2, some 3, some 5] ∧
    pollTrace [0, 1, 2, 3] [4, 5] 10 ≠ claimedC1Trace := by
  decide

/-- Claim C1 (amended): with priority queue `[A,B,C,D]` and secondary
queue `[E,F]`, ticks 0–9 query `A,B,C,D,E,A,B,C,D,F`; the secondary queue
is substituted exactly at the ticks whose number is `≡ 4 (mod 5)` (per the
rule that on ticks where the cycle counter mod 5 equals 4 the next
secondary PID is queried, all other ticks take the next priority PID, and
each queue wraps cyclically past its end). -/
theorem c1_amended :
    pollTrace [0, 1, 2, 3] [4, 5] 10 =
      [some 0, some 1, some 2, some 3, some 4, some 0, some 1, some 2, some 3, some 5] ∧
    ∀ n : Nat, usesSecondary [0, 1, 2, 3] ([4, 5] : List Nat) n = true ↔ n % 5 = 4 := by
  refine ⟨by decide, fun n => ?_⟩
  simp [usesSecondary, schedRun_cycleCount]

/-! ## Claim C3: adapter initialization -/

/-- The exact event trace `initializeAdapter` produces: the six
configuration commands in order with the 1000 ms settling delay after the
reset. -/
def initTrace : List InitEvent :=
  [InitEvent.cmd ("ATZ".toList), InitEvent.settle 1000,
   InitEvent.cmd ("ATE0".toList), InitEvent.cmd ("ATL0".toList),
   InitEvent.cmd ("ATS0".toList), InitEvent.cmd ("ATH0".toList),
   InitEvent.cmd ("ATSP0".toList)]

/-- Claim C3 is false in its timeout half: in the environment where the
adapter never answers any command (so, per the claim, every per-command
wait would time out and initialization would fail with
`AdapterInitFailed`), the source's initialization still completes
successfully with the full command trace — it never waits for responses
and has no failure path. -/
theorem c3_counterexample :
    initializeAdapter (fun _ => none) = Except.ok initTrace ∧
    initializeAdapter (fun _ => none) ≠ Except.error InitError.adapterInitFailed := by
  refine ⟨rfl, fun h => ?_⟩
  rw [show initializeAdapter (fun _ => none) = Except.ok initTrace from rfl] at h
  exact Except.noConfusion h

/-- Claim C3 (amended): during adapter initialization the six
configuration commands are sent in strict order — reset, echo off,
linefeeds off, spaces off, headers off, automatic protocol select — with
the settling delay applied after the first (reset); each subsequent
command is sent as soon as the previous command's write completes, without
waiting for the previous command's response to be framed; there is no
per-command timeout and no `AdapterInitFailed` path, so initialization
completes successfully whatever the adapter answers (or does not
answer). -/
theorem c3_amended (responses : Nat → Option (List Char)) :
    initializeAdapter responses = Except.ok initTrace :=
  rfl

/-! ## Claim C8: disconnect idempotence -/

/-- Claim C8: `disconnect()` twice in succession never throws (the
embedding is a total function, faithfully: the source's only awaited call,
the transport cancel, always succeeds locally) and the second call is a
no-op, leaving the session exactly as the first call left it — snapshot
reset to the initial values, no connected device, no write characteristic,
polling stopped. -/
theorem c8_disconnect_idempotent (s : SessionState) :
    disconnect (disconnect s) = disconnect s ∧
    (disconnect s).data = INITIAL_OBD_DATA ∧
    (disconnect s).device = none ∧
    (disconnect s).pollingInterval = none ∧
    (disconnect s).writeCharacteristic = none := by
  cases h : s.device <;> simp [disconnect, stopPolling, h]

/-! ## Distributor lemmas and claim C7 -/

theorem notify_foldl_fst (effect : Nat → List Nat → List Nat) (s : Svc) (ls : List Nat) :
    ((ls.foldl (notifyStep effect) s).delivered).map Prod.fst =
      (s.delivered).map Prod.fst ++ ls := by
  induction ls generalizing s with
  | nil => simp
  | cons l t ih => simp [List.foldl_cons, ih, notifyStep]

/-- Claim C7: if, during one publish, the subscriber `self` unsubscribes
itself from inside its own callback, the publish still delivers to every
listener registered when the publish began, in registration order —
including listeners registered after `self` — and (the embedding being a
total function) no exception is raised. -/
theorem c7_unsubscribe_during_publish (s : Svc) (self : Nat) :
    ((notifyListeners
        (fun l ls => if l = self then unsubscribeEffect self ls else ls) s).delivered).map
        Prod.fst =
      (s.delivered).map Prod.fst ++ s.listeners :=
  notify_foldl_fst _ s s.listeners

/-! ## Heap lemmas for the distributor and claims C2, C10 -/

/-- Well-formedness of the service heap model: the live snapshot address
and every delivered address point into the heap. -/
def SvcWF (s : Svc) : Prop :=
  s.live < s.heap.length ∧ ∀ p ∈ s.delivered, p.2 < s.heap.length

theorem notify_foldl_live (effect : Nat → List Nat → List Nat) (s : Svc) (ls : List Nat) :
    (ls.foldl (notifyStep effect) s).live = s.live := by
  induction ls generalizing s with
  | nil => rfl
  | cons l t ih => rw [List.foldl_cons, ih]; rfl

theorem notify_foldl_heapLen (effect : Nat → List Nat → List Nat) (s : Svc) (ls : List Nat) :
    s.heap.length ≤ (ls.foldl (notifyStep effect) s).heap.length := by
  induction ls generalizing s with
  | nil => exact Nat.le_refl _
  | cons l t ih =>
    calc s.heap.length ≤ (notifyStep effect s l).heap.length := by
          simp [notifyStep]
      _ ≤ _ := by rw [List.foldl_cons]; exact ih _

theorem notify_foldl_delivered_mem (effect : Nat → List Nat → List Nat) (s : Svc)
    (ls : List Nat) (p : Nat × Nat)
    (hp : p ∈ (ls.foldl (notifyStep effect) s).delivered) :
    p ∈ s.delivered ∨ s.heap.length ≤ p.2 := by
  induction ls generalizing s with
  | nil => exact Or.inl hp
  | cons l t ih =>
    rw [List.foldl_cons] at hp
    rcases ih (notifyStep effect s l) hp with h | h
    · simp only [notifyStep, List.mem_append, List.mem_singleton] at h
      rcases h with h | h
      · exact Or.inl h
      · right
        rw [h]
    · right
      have hl : s.heap.length ≤ (notifyStep effect s l).heap.length := by simp [notifyStep]
      omega

theorem notify_foldl_heap_getD (effect : Nat → List Nat → List Nat) (s : Svc)
    (ls : List Nat) (i : Nat) (hi : i < s.heap.length) :
    (ls.foldl (notifyStep effect) s).heap.getD i INITIAL_OBD_DATA =
      s.heap.getD i INITIAL_OBD_DATA := by
  induction ls generalizing s with
  | nil => rfl
  | cons l t ih =>
    rw [List.foldl_cons, ih _ (by simp [notifyStep]; omega)]
    simp only [notifyStep]
    exact List.getD_append _ _ _ _ hi

theorem notify_foldl_wf (effect : Nat → List Nat → List Nat) (s : Svc) (ls : List Nat)
    (h : SvcWF s) : SvcWF (ls.foldl (notifyStep effect) s) := by
  induction ls generalizing s with
  | nil => exact h
  | cons l t ih =>
    rw [List.foldl_cons]
    apply ih
    obtain ⟨h1, h2⟩ := h
    constructor
    · simp only [notifyStep, List.length_append, List.length_singleton]
      omega
    · intro p hp
      simp only [notifyStep, List.mem_append, List.mem_singleton, List.length_append,
        List.length_singleton] at hp ⊢
      rcases hp with hp | hp
      · have := h2 p hp
        omega
      · rw [hp]
        simp

theorem notifyListeners_heap_getD (effect : Nat → List Nat → List Nat) (s : Svc) (i : Nat)
    (hi : i < s.heap.length) :
    (notifyListeners effect s).heap.getD i INITIAL_OBD_DATA =
      s.heap.getD i INITIAL_OBD_DATA :=
  notify_foldl_heap_getD effect s s.listeners i hi

/-- Claim C2 is false in its "the initial delivery is a copy" part: start
a fresh service, subscribe listener 7 (it is handed the live snapshot
object, address 0, whose `rpm` then reads 0), then decode the RPM response
`41 0C 1A F8`.  The object the subscriber already received now reads
`rpm = 1726`: the decode altered the snapshot value delivered at
subscription time, because `subscribe` passes `this.data` itself rather
than a copy. -/
theorem c2_counterexample :
    (subscribe svcInit 7).delivered = [(7, 0)] ∧
    ((subscribe svcInit 7).heap.getD 0 INITIAL_OBD_DATA).rpm = some 0 ∧
    ((svcParse (fun _ ls => ls) (subscribe svcInit 7) ("410C1AF8".toList)).heap.getD 0
        INITIAL_OBD_DATA).rpm = some 1726 ∧
    (some (0 : ℚ) : JsNum) ≠ some 1726 := by
  refine ⟨rfl, by decide, by decide, by decide⟩

/-- Claim C2 (amended): `subscribe(observer)` registers the observer,
immediately delivers the current snapshot to it exactly once, and returns
an unsubscribe handle; the snapshots delivered during publishes
(`notifyListeners`) are freshly allocated copies, so a decode occurring
after such a delivery does not alter the snapshot value the subscriber
received; but the one snapshot delivered at subscription time is the
store's live mutable object, not a copy (see the counterexample). -/
theorem c2_amended (s : Svc) (l : Nat) (effect : Nat → List Nat → List Nat)
    (r : List Char) (h : SvcWF s) :
    subscribe s l =
      { s with listeners := s.listeners ++ [l], delivered := s.delivered ++ [(l, s.live)] } ∧
    (∀ p ∈ (notifyListeners effect s).delivered, p ∉ s.delivered →
      ((svcParse effect (notifyListeners effect s) r).heap.getD p.2 INITIAL_OBD_DATA =
        (notifyListeners effect s).heap.getD p.2 INITIAL_OBD_DATA)) := by
  obtain ⟨hlive, hdel⟩ := h
  refine ⟨rfl, fun p hp hnew => ?_⟩
  have hfresh : s.heap.length ≤ p.2 := by
    rcases notify_foldl_delivered_mem effect s s.listeners p hp with hmem | hge
    · exact absurd hmem hnew
    · exact hge
  have hwf' : SvcWF (notifyListeners effect s) :=
    notify_foldl_wf effect s s.listeners ⟨hlive, hdel⟩
  have hplt : p.2 < (notifyListeners effect s).heap.length := hwf'.2 p hp
  have hlive' : (notifyListeners effect s).live = s.live :=
    notify_foldl_live effect s s.listeners
  have hne : (notifyListeners effect s).live ≠ p.2 := by
    rw [hlive']
    omega
  unfold svcParse
  split
  · rw [notifyListeners_heap_getD _ _ _ (by simpa [List.length_set] using hplt)]
    simp only [List.getD]
    rw [List.get?_set_ne _ _ hne]
  · rfl

/-- Claim C10: the response `410CZZZZ` passes every validation step of the
decoder — after cleaning it begins with `41`, its PID `0C` is known, and
its payload `ZZZZ` meets the 4-character length guard — yet the payload is
not hexadecimal (`parseInt` yields `NaN`), and the decoder writes that
`NaN` (modelled as `none`) into the `rpm` field of the live snapshot and
publishes the poisoned snapshot to the subscriber instead of discarding
the response. -/
theorem c10_nan_published :
    startsWith41 (cleanResp ("410CZZZZ".toList)) = true ∧
    ((cleanResp ("410CZZZZ".toList)).drop 2).take 2 = ['0', 'C'] ∧
    expectedLen ['0', 'C'] = some 4 ∧
    (cleanResp ("410CZZZZ".toList)).drop 4 = ['Z', 'Z', 'Z', 'Z'] ∧
    hexDigitVal 'Z' = none ∧
    (parseOBDResponse INITIAL_OBD_DATA ("410CZZZZ".toList)).rpm = none ∧
    (svcParse (fun _ ls => ls) (subscribe svcInit 3) ("410CZZZZ".toList)).delivered =
      [(3, 0), (3, 1)] ∧
    ((svcParse (fun _ ls => ls) (subscribe svcInit 3) ("410CZZZZ".toList)).heap.getD 1
        INITIAL_OBD_DATA).rpm = none := by
  decide

/-! ## Frame assembler lemmas and claim C6 -/

theorem containsGt_append (a b : List Char) :
    containsGt (a ++ b) = (containsGt a || containsGt b) := by
  simp [containsGt, List.any_append]

/-- Claim C6: a response (or any sequence of transport bytes) delivered
split across two chunks with the prompt terminator in the second chunk,
starting from an empty `PendingResponseBuffer`, leaves the frame assembler
in exactly the same state — same snapshot, same buffer, same decode-call
trace — as the same bytes delivered in a single chunk. -/
theorem c6_split_chunks (d : OBDData) (calls0 : List (List Char)) (c1 c2 : List Char)
    (h1 : containsGt c1 = false) (h2 : containsGt c2 = true) :
    handleResponse (handleResponse ⟨d, [], calls0⟩ c1) c2 =
      handleResponse ⟨d, [], calls0⟩ (c1 ++ c2) := by
  simp [handleResponse, containsGt_append, h1, h2]

/-- Witness for C6 at the concrete RPM response `410C1AF8>` split as
`410C1A` then `F8>`. -/
theorem c6_split_chunks_witness :
    containsGt ("410C1A".toList) = false ∧ containsGt ("F8>".toList) = true ∧
    handleResponse (handleResponse ⟨INITIAL_OBD_DATA, [], []⟩ ("410C1A".toList))
        ("F8>".toList) =
      handleResponse ⟨INITIAL_OBD_DATA, [], []⟩ ("410C1A".toList ++ "F8>".toList) :=
  ⟨by decide, by decide, c6_split_chunks INITIAL_OBD_DATA [] _ _ (by decide) (by decide)⟩

/-! ## Decoder discard lemmas and claims C4, C9 -/

theorem pidTargets_eq (pid : List Char) (f : FieldId) (h : pidTargets pid = some f) :
    pid = pidOfField f := by
  unfold pidTargets at h
  by_cases hc1 : pid = ['0', 'C']
  · rw [if_pos hc1] at h
    injection h with h2
    subst h2
    exact hc1
  rw [if_neg hc1] at h
  by_cases hc2 : pid = ['0', 'D']
  · rw [if_pos hc2] at h
    injection h with h2
    subst h2
    exact hc2
  rw [if_neg hc2] at h
  by_cases hc3 : pid = ['0', '5']
  · rw [if_pos hc3] at h
    injection h with h2
    subst h2
    exact hc3
  rw [if_neg hc3] at h
  by_cases hc4 : pid = ['0', '4']
  · rw [if_pos hc4] at h
    injection h with h2
    subst h2
    exact hc4
  rw [if_neg hc4] at h
  by_cases hc5 : pid = ['1', '1']
  · rw [if_pos hc5] at h
    injection h with h2
    subst h2
    exact hc5
  rw [if_neg hc5] at h
  by_cases hc6 : pid = ['2', 'F']
  · rw [if_pos hc6] at h
    injection h with h2
    subst h2
    exact hc6
  rw [if_neg hc6] at h
  by_cases hc7 : pid = ['5', 'E']
  · rw [if_pos hc7] at h
    injection h with h2
    subst h2
    exact hc7
  rw [if_neg hc7] at h
  by_cases hc8 : pid = ['0', 'A']
  · rw [if_pos hc8] at h
    injection h with h2
    subst h2
    exact hc8
  rw [if_neg hc8] at h
  by_cases hc9 : pid = ['0', 'B']
  · rw [if_pos hc9] at h
    injection h with h2
    subst h2
    exact hc9
  rw [if_neg hc9] at h
  by_cases hc10 : pid = ['1', '0']
  · rw [if_pos hc10] at h
    injection h with h2
    subst h2
    exact hc10
  rw [if_neg hc10] at h
  by_cases hc11 : pid = ['0', 'F']
  · rw [if_pos hc11] at h
    injection h with h2
    subst h2
    exact hc11
  rw [if_neg hc11] at h
  by_cases hc12 : pid = ['3', '3']
  · rw [if_pos hc12] at h
    injection h with h2
    subst h2
    exact hc12
  rw [if_neg hc12] at h
  by_cases hc13 : pid = ['5', 'C']
  · rw [if_pos hc13] at h
    injection h with h2
    subst h2
    exact hc13
  rw [if_neg hc13] at h
  by_cases hc14 : pid = ['4', '6']
  · rw [if_pos hc14] at h
    injection h with h2
    subst h2
    exact hc14
  rw [if_neg hc14] at h
  by_cases hc15 : pid = ['6', '2']
  · rw [if_pos hc15] at h
    injection h with h2
    subst h2
    exact hc15
  rw [if_neg hc15] at h
  by_cases hc16 : pid = ['6', '3']
  · rw [if_pos hc16] at h
    injection h with h2
    subst h2
    exact hc16
  rw [if_neg hc16] at h
  by_cases hc17 : pid = ['4', '9']
  · rw [if_pos hc17] at h
    injection h with h2
    subst h2
    exact hc17
  rw [if_neg hc17] at h
  by_cases hc18 : pid = ['2', 'C']
  · rw [if_pos hc18] at h
    injection h with h2
    subst h2
    exact hc18
  rw [if_neg hc18] at h
  by_cases hc19 : pid = ['2', 'D']
  · rw [if_pos hc19] at h
    injection h with h2
    subst h2
    exact hc19
  rw [if_neg hc19] at h
  by_cases hc20 : pid = ['4', '2']
  · rw [if_pos hc20] at h
    injection h with h2
    subst h2
    exact hc20
  rw [if_neg hc20] at h
  by_cases hc21 : pid = ['1', 'F']
  · rw [if_pos hc21] at h
    injection h with h2
    subst h2
    exact hc21
  rw [if_neg hc21] at h
  exact Option.noConfusion h

theorem fieldVal_setField_ne (d : OBDData) (f g : FieldId) (v : JsNum) (h : f ≠ g) :
    fieldVal (setField d g v) f = fieldVal d f := by
  cases f <;> cases g <;> first | exact absurd rfl h | rfl

theorem expectedLen_pid_length (pid : List Char) (n : Nat) (hn : expectedLen pid = some n) :
    pid.length = 2 := by
  unfold expectedLen at hn
  cases hp : pidTargets pid with
  | none =>
    rw [hp] at hn
    simp at hn
  | some f =>
    rw [pidTargets_eq pid f hp]
    cases f <;> rfl

theorem decodePid_short (d : OBDData) (pid payload : List Char) (n : Nat)
    (hn : expectedLen pid = some n) (hlen : payload.length < n) :
    decodePid d pid payload = d := by
  unfold expectedLen at hn
  cases hp : pidTargets pid with
  | none =>
    unfold decodePid
    rw [hp]
  | some f =>
    rw [hp] at hn
    simp only [Option.map_some'] at hn
    injection hn with hn2
    have hd : decodePid d pid payload =
        if lenOfField f ≤ payload.length then setField d f (decodeField f payload) else d := by
      unfold decodePid
      rw [hp]
    rw [hd, if_neg (by omega)]

theorem startsWith41_cons (x : List Char) : startsWith41 ('4' :: '1' :: x) = true := by
  simp [startsWith41, List.isPrefixOf]

/-- Claim C4: each malformed-response shape the spec lists leaves every
snapshot field unchanged (and, the embedding being total, raises no
exception): the literal `NODATA` string; any echo of a sent command (any
response that after whitespace-stripping and uppercasing does not begin
with the Mode-01 prefix `41`); and any response whose payload has fewer
hex characters than its PID's declared byte-length expectation. -/
theorem c4_malformed_discarded (d : OBDData) (rEcho r pid payload : List Char) (n : Nat)
    (hEcho : startsWith41 (cleanResp rEcho) = false)
    (hr : cleanResp r = ['4', '1'] ++ pid ++ payload)
    (hn : expectedLen pid = some n)
    (hlen : payload.length < n) :
    parseOBDResponse d ("NODATA".toList) = d ∧
    parseOBDResponse d rEcho = d ∧
    parseOBDResponse d r = d := by
  refine ⟨rfl, ?_, ?_⟩
  · simp [parseOBDResponse, hEcho]
  · have hp2 : pid.length = 2 := expectedLen_pid_length pid n hn
    have hclean : cleanResp r = '4' :: '1' :: (pid ++ payload) := by simpa using hr
    have e1 : ((cleanResp r).drop 2).take 2 = pid := by
      rw [hclean]
      simp only [List.drop_succ_cons, List.drop_zero]
      rw [← hp2]
      exact List.take_left pid payload
    have e2 : (cleanResp r).drop 4 = payload := by
      rw [hclean]
      simp only [List.drop_succ_cons]
      rw [show (2 : Nat) = pid.length from hp2.symm]
      exact List.drop_left pid payload
    simp only [parseOBDResponse, hclean, startsWith41_cons, if_true]
    rw [← hclean, e1, e2]
    exact decodePid_short d pid payload n hn hlen

/-- Witness for C4: the echo `010C` (not a `41` reply), the truncated RPM
response `410C1A` (payload 2 < 4), and `NODATA` all leave the snapshot
unchanged. -/
theorem c4_malformed_discarded_witness :
    (startsWith41 (cleanResp ("010C".toList)) = false ∧
      cleanResp ("410C1A".toList) = ['4', '1'] ++ ['0', 'C'] ++ ['1', 'A'] ∧
      expectedLen ['0', 'C'] = some 4 ∧ (['1', 'A'] : List Char).length < 4) ∧
    (parseOBDResponse INITIAL_OBD_DATA ("NODATA".toList) = INITIAL_OBD_DATA ∧
      parseOBDResponse INITIAL_OBD_DATA ("010C".toList) = INITIAL_OBD_DATA ∧
      parseOBDResponse INITIAL_OBD_DATA ("410C1A".toList) = INITIAL_OBD_DATA) :=
  ⟨⟨by decide, by decide, by decide, by decide⟩,
    c4_malformed_discarded INITIAL_OBD_DATA _ _ ['0', 'C'] ['1', 'A'] 4
      (by decide) (by decide) (by decide) (by decide)⟩

theorem decodePid_frame (d : OBDData) (pid payload : List Char) (f : FieldId)
    (h : fieldVal (decodePid d pid payload) f ≠ fieldVal d f) :
    pid = pidOfField f ∧ ∃ n, expectedLen pid = some n ∧ n ≤ payload.length := by
  cases hp : pidTargets pid with
  | none =>
    have hd : decodePid d pid payload = d := by
      unfold decodePid
      rw [hp]
    rw [hd] at h
    exact absurd rfl h
  | some g =>
    have hd : decodePid d pid payload =
        if lenOfField g ≤ payload.length then setField d g (decodeField g payload) else d := by
      unfold decodePid
      rw [hp]
    rw [hd] at h
    by_cases hlen : lenOfField g ≤ payload.length
    · rw [if_pos hlen] at h
      have hfg : f = g := by
        by_contra hne
        exact h (fieldVal_setField_ne d f g _ hne)
      subst hfg
      refine ⟨pidTargets_eq pid f hp, lenOfField f, ?_, hlen⟩
      unfold expectedLen
      rw [hp]
      rfl
    · rw [if_neg hlen] at h
      exact absurd rfl h

/-- Claim C9: every numeric snapshot field starts the session zero-valued
(`INITIAL_OBD_DATA`), and a field's value changes only on a successful
decode of that very field — the response begins with `41` after cleaning,
names the field's PID, and meets its length guard.  In particular a
failed, truncated or discarded response never resets any field. -/
theorem c9_fields_stable (d : OBDData) (r : List Char) (f : FieldId)
    (hchg : fieldVal (parseOBDResponse d r) f ≠ fieldVal d f) :
    fieldVal INITIAL_OBD_DATA f = some 0 ∧ successfulDecode r f := by
  constructor
  · cases f <;> decide
  · unfold parseOBDResponse at hchg
    by_cases h41 : startsWith41 (cleanResp r) = true
    · rw [if_pos h41] at hchg
      obtain ⟨hpid, n, hn, hlen⟩ := decodePid_frame d _ _ f hchg
      refine ⟨h41, hpid, n, ?_, hlen⟩
      rw [← hpid]
      exact hn
    · rw [if_neg h41] at hchg
      exact absurd rfl hchg

/-- Witness for C9 at the RPM response `410C1AF8`, which changes `rpm`
from 0 to 1726. -/
theorem c9_fields_stable_witness :
    fieldVal (parseOBDResponse INITIAL_OBD_DATA ("410C1AF8".toList)) FieldId.rpm ≠
      fieldVal INITIAL_OBD_DATA FieldId.rpm ∧
    (fieldVal INITIAL_OBD_DATA FieldId.rpm = some 0 ∧
      successfulDecode ("410C1AF8".toList) FieldId.rpm) :=
  ⟨by decide, c9_fields_stable INITIAL_OBD_DATA _ FieldId.rpm (by decide)⟩

/-! ## Hex-encoding lemmas and claim C5 -/

set_option maxRecDepth 16384 in
theorem toHex2_parse : ∀ a < 256, jsParseIntHex (toHex2 a) = some (qOfNat a) := by decide

set_option maxRecDepth 16384 in
theorem toHex2_clean : ∀ a < 256, cleanResp (toHex2 a) = toHex2 a := by decide

theorem cleanResp_append (x y : List Char) :
    cleanResp (x ++ y) = cleanResp x ++ cleanResp y := by
  simp [cleanResp]

theorem parseTwoBytes_hex (a b : Nat) (ha : a < 256) (hb : b < 256) :
    parseTwoBytes (toHex2 a ++ toHex2 b) =
      some (qadd (qmul (qOfNat 256) (qOfNat a)) (qOfNat b)) := by
  unfold parseTwoBytes
  rw [show (toHex2 a ++ toHex2 b).take 2 = toHex2 a from rfl,
    show ((toHex2 a ++ toHex2 b).drop 2).take 2 = toHex2 b from rfl,
    toHex2_parse a ha, toHex2_parse b hb]
  rfl

theorem cleanResp_cons_keep (c : Char) (l : List Char) (hs : isJsSpace c = false)
    (hu : c.toUpper = c) : cleanResp (c :: l) = c :: cleanResp l := by
  simp [cleanResp, hs, hu]

theorem parse_resp1 (d : OBDData) (p1 p2 : Char) (a : Nat) (ha : a < 256)
    (hc1 : cleanResp [p1, p2] = [p1, p2]) :
    parseOBDResponse d (resp1 [p1, p2] a) = decodePid d [p1, p2] (toHex2 a) := by
  have hc : cleanResp (resp1 [p1, p2] a) = '4' :: '1' :: p1 :: p2 :: toHex2 a := by
    show cleanResp ('4' :: '1' :: ([p1, p2] ++ toHex2 a)) = _
    rw [cleanResp_cons_keep '4' _ rfl rfl, cleanResp_cons_keep '1' _ rfl rfl,
      cleanResp_append, hc1, toHex2_clean a ha]
    rfl
  unfold parseOBDResponse
  rw [hc, startsWith41_cons, if_pos rfl]
  rfl

theorem parse_resp2 (d : OBDData) (p1 p2 : Char) (a b : Nat) (ha : a < 256) (hb : b < 256)
    (hc1 : cleanResp [p1, p2] = [p1, p2]) :
    parseOBDResponse d (resp2 [p1, p2] a b) =
      decodePid d [p1, p2] (toHex2 a ++ toHex2 b) := by
  have hc : cleanResp (resp2 [p1, p2] a b) =
      '4' :: '1' :: p1 :: p2 :: (toHex2 a ++ toHex2 b) := by
    show cleanResp ('4' :: '1' :: ([p1, p2] ++ (toHex2 a ++ toHex2 b))) = _
    rw [cleanResp_cons_keep '4' _ rfl rfl, cleanResp_cons_keep '1' _ rfl rfl,
      cleanResp_append, hc1, cleanResp_append, toHex2_clean a ha, toHex2_clean b hb]
    rfl
  unfold parseOBDResponse
  rw [hc, startsWith41_cons, if_pos rfl]
  rfl

/-- Division of a rational by the constant 1 is the identity, so the
spec's two-byte shape with divisor 1 is the raw two-byte value. -/
theorem specShapeTwoByte_one (x y : ℚ) :
    specShapeTwoByte x y (qOfNat 1) = qadd (qmul (qOfNat 256) x) y := by
  unfold specShapeTwoByte
  rw [qdiv_eq]
  norm_num [qOfNat_eq]

/-- Claim C5 is false: the decode rule for PID `0A` (fuel pressure) is
`byte * 3`, which is none of the four listed shapes.  On the response
`410A20` (payload one byte, `0x20` = 32) the decoder writes 96, while the
three single-byte spec shapes at byte 32 give 13 (percentage), −8
(temperature) and −75 (signed offset), and the two-byte shape cannot apply
to the one-byte payload. -/
theorem c5_counterexample :
    (parseOBDResponse INITIAL_OBD_DATA ("410A20".toList)).fuelPressure = some 96 ∧
    (cleanResp ("410A20".toList)).drop 4 = ['2', '0'] ∧
    specShapePercent 32 = 13 ∧
    specShapeTemp 32 = -8 ∧
    specShapeSigned 32 = -75 ∧
    (96 : ℚ) ≠ 13 ∧ (96 : ℚ) ≠ -8 ∧ (96 : ℚ) ≠ -75 := by
  decide

/-- Claim C5 (amended): the decoder implements seven numeric shapes, not
four.  The four the spec lists appear as stated — (1) single-byte
percentage `round(byte*100/255)` for engine load, throttle, fuel level,
accelerator and commanded EGR; (2) single-byte temperature `byte − 40` for
coolant, intake, oil and ambient; (3) two-byte big-endian `256*A+B`
divided by a PID-specific constant, with rounding where the code rounds:
`round(x/4)` for RPM, `x/20` and `x/100` rounded to one decimal for fuel
rate and MAF, `round(x/100)/10` for voltage, and divisor 1 (raw) for
reference torque and run time; (4) signed-offset percentage
`round((byte−128)*100/128)` for EGR error.  In addition the decoder
implements (5) the raw single byte for speed, boost and barometric
pressure, (6) `byte*3` for fuel pressure, and (7) `byte−125` for actual
torque — none of which is a listed shape. -/
theorem c5_amended (d : OBDData) (a b : Nat) (ha : a < 256) (hb : b < 256) :
    (parseOBDResponse d (resp2 ['0', 'C'] a b)).rpm =
      some (qround (specShapeTwoByte (qOfNat a) (qOfNat b) (qOfNat 4))) ∧
    (parseOBDResponse d (resp1 ['0', 'D'] a)).speed =
      some (qOfNat a) ∧
    (parseOBDResponse d (resp1 ['0', '5'] a)).coolantTemp =
      some (specShapeTemp (qOfNat a)) ∧
    (parseOBDResponse d (resp1 ['0', '4'] a)).engineLoad =
      some (specShapePercent (qOfNat a)) ∧
    (parseOBDResponse d (resp1 ['1', '1'] a)).throttlePosition =
      some (specShapePercent (qOfNat a)) ∧
    (parseOBDResponse d (resp1 ['2', 'F'] a)).fuelLevel =
      some (specShapePercent (qOfNat a)) ∧
    (parseOBDResponse d (resp2 ['5', 'E'] a b)).fuelRate =
      some (qdiv (qround (qmul (specShapeTwoByte (qOfNat a) (qOfNat b) (qOfNat 20)) (qOfNat 10))) (qOfNat 10)) ∧
    (parseOBDResponse d (resp1 ['0', 'A'] a)).fuelPressure =
      some (qmul (qOfNat a) (qOfNat 3)) ∧
    (parseOBDResponse d (resp1 ['0', 'B'] a)).boostPressure =
      some (qOfNat a) ∧
    (parseOBDResponse d (resp2 ['1', '0'] a b)).mafRate =
      some (qdiv (qround (qmul (specShapeTwoByte (qOfNat a) (qOfNat b) (qOfNat 100)) (qOfNat 10))) (qOfNat 10)) ∧
    (parseOBDResponse d (resp1 ['0', 'F'] a)).intakeAirTemp =
      some (specShapeTemp (qOfNat a)) ∧
    (parseOBDResponse d (resp1 ['3', '3'] a)).barometricPressure =
      some (qOfNat a) ∧
    (parseOBDResponse d (resp1 ['5', 'C'] a)).oilTemp =
      some (specShapeTemp (qOfNat a)) ∧
    (parseOBDResponse d (resp1 ['4', '6'] a)).ambientTemp =
      some (specShapeTemp (qOfNat a)) ∧
    (parseOBDResponse d (resp1 ['6', '2'] a)).actualTorque =
      some (qsub (qOfNat a) (qOfNat 125)) ∧
    (parseOBDResponse d (resp2 ['6', '3'] a b)).referenceTorque =
      some (specShapeTwoByte (qOfNat a) (qOfNat b) (qOfNat 1)) ∧
    (parseOBDResponse d (resp1 ['4', '9'] a)).acceleratorPosition =
      some (specShapePercent (qOfNat a)) ∧
    (parseOBDResponse d (resp1 ['2', 'C'] a)).egrCommanded =
      some (specShapePercent (qOfNat a)) ∧
    (parseOBDResponse d (resp1 ['2', 'D'] a)).egrError =
      some (qround (specShapeSigned (qOfNat a))) ∧
    (parseOBDResponse d (resp2 ['4', '2'] a b)).batteryVoltage =
      some (qdiv (qround (specShapeTwoByte (qOfNat a) (qOfNat b) (qOfNat 100))) (qOfNat 10)) ∧
    (parseOBDResponse d (resp2 ['1', 'F'] a b)).runTime =
      some (specShapeTwoByte (qOfNat a) (qOfNat b) (qOfNat 1)) := by
  refine ⟨?_, ?_, ?_, ?_, ?_, ?_, ?_, ?_, ?_, ?_, ?_, ?_, ?_, ?_, ?_, ?_, ?_, ?_, ?_, ?_, ?_⟩
  · rw [parse_resp2 d '0' 'C' a b ha hb rfl]
    show jround (parseTwoBytes (toHex2 a ++ toHex2 b) / 4) = _
    rw [parseTwoBytes_hex a b ha hb]
    rfl
  · rw [parse_resp1 d '0' 'D' a ha rfl]
    show jsParseIntHex (toHex2 a) = _
    rw [toHex2_parse a ha]
  · rw [parse_resp1 d '0' '5' a ha rfl]
    show jsParseIntHex (toHex2 a) - 40 = _
    rw [toHex2_parse a ha]
    rfl
  · rw [parse_resp1 d '0' '4' a ha rfl]
    show jround (jsParseIntHex (toHex2 a) * 100 / 255) = _
    rw [toHex2_parse a ha]
    rfl
  · rw [parse_resp1 d '1' '1' a ha rfl]
    show jround (jsParseIntHex (toHex2 a) * 100 / 255) = _
    rw [toHex2_parse a ha]
    rfl
  · rw [parse_resp1 d '2' 'F' a ha rfl]
    show jround (jsParseIntHex (toHex2 a) * 100 / 255) = _
    rw [toHex2_parse a ha]
    rfl
  · rw [parse_resp2 d '5' 'E' a b ha hb rfl]
    show jround (parseTwoBytes (toHex2 a ++ toHex2 b) / 20 * 10) / 10 = _
    rw [parseTwoBytes_hex a b ha hb]
    rfl
  · rw [parse_resp1 d '0' 'A' a ha rfl]
    show jsParseIntHex (toHex2 a) * 3 = _
    rw [toHex2_parse a ha]
    rfl
  · rw [parse_resp1 d '0' 'B' a ha rfl]
    show jsParseIntHex (toHex2 a) = _
    rw [toHex2_parse a ha]
  · rw [parse_resp2 d '1' '0' a b ha hb rfl]
    show jround (parseTwoBytes (toHex2 a ++ toHex2 b) / 100 * 10) / 10 = _
    rw [parseTwoBytes_hex a b ha hb]
    rfl
  · rw [parse_resp1 d '0' 'F' a ha rfl]
    show jsParseIntHex (toHex2 a) - 40 = _
    rw [toHex2_parse a ha]
    rfl
  · rw [parse_resp1 d '3' '3' a ha rfl]
    show jsParseIntHex (toHex2 a) = _
    rw [toHex2_parse a ha]
  · rw [parse_resp1 d '5' 'C' a ha rfl]
    show jsParseIntHex (toHex2 a) - 40 = _
    rw [toHex2_parse a ha]
    rfl
  · rw [parse_resp1 d '4' '6' a ha rfl]
    show jsParseIntHex (toHex2 a) - 40 = _
    rw [toHex2_parse a ha]
    rfl
  · rw [parse_resp1 d '6' '2' a ha rfl]
    show jsParseIntHex (toHex2 a) - 125 = _
    rw [toHex2_parse a ha]
    rfl
  · rw [parse_resp2 d '6' '3' a b ha hb rfl]
    show parseTwoBytes (toHex2 a ++ toHex2 b) = _
    rw [parseTwoBytes_hex a b ha hb, ← specShapeTwoByte_one (qOfNat a) (qOfNat b)]
  · rw [parse_resp1 d '4' '9' a ha rfl]
    show jround (jsParseIntHex (toHex2 a) * 100 / 255) = _
    rw [toHex2_parse a ha]
    rfl
  · rw [parse_resp1 d '2' 'C' a ha rfl]
    show jround (jsParseIntHex (toHex2 a) * 100 / 255) = _
    rw [toHex2_parse a ha]
    rfl
  · rw [parse_resp1 d '2' 'D' a ha rfl]
    show jround ((jsParseIntHex (toHex2 a) - 128) * 100 / 128) = _
    rw [toHex2_parse a ha]
    rfl
  · rw [parse_resp2 d '4' '2' a b ha hb rfl]
    show jround (parseTwoBytes (toHex2 a ++ toHex2 b) / 100) / 10 = _
    rw [parseTwoBytes_hex a b ha hb]
    rfl
  · rw [parse_resp2 d '1' 'F' a b ha hb rfl]
    show parseTwoBytes (toHex2 a ++ toHex2 b) = _
    rw [parseTwoBytes_hex a b ha hb, ← specShapeTwoByte_one (qOfNat a) (qOfNat b)]

/-- Witness for C5 (amended) at bytes `A = 26 (0x1A)`, `B = 248 (0xF8)`. -/
theorem c5_amended_witness :
    (26 : Nat) < 256 ∧ (248 : Nat) < 256 ∧
    ((parseOBDResponse INITIAL_OBD_DATA (resp2 ['0', 'C'] 26 248)).rpm =
      some (qround (specShapeTwoByte (qOfNat 26) (qOfNat 248) (qOfNat 4))) ∧
    (parseOBDResponse INITIAL_OBD_DATA (resp1 ['0', 'D'] 26)).speed =
      some (qOfNat 26) ∧
    (parseOBDResponse INITIAL_OBD_DATA (resp1 ['0', '5'] 26)).coolantTemp =
      some (specShapeTemp (qOfNat 26)) ∧
    (parseOBDResponse INITIAL_OBD_DATA (resp1 ['0', '4'] 26)).engineLoad =
      some (specShapePercent (qOfNat 26)) ∧
    (parseOBDResponse INITIAL_OBD_DATA (resp1 ['1', '1'] 26)).throttlePosition =
      some (specShapePercent (qOfNat 26)) ∧
    (parseOBDResponse INITIAL_OBD_DATA (resp1 ['2', 'F'] 26)).fuelLevel =
      some (specShapePercent (qOfNat 26)) ∧
    (parseOBDResponse INITIAL_OBD_DATA (resp2 ['5', 'E'] 26 248)).fuelRate =
      some (qdiv (qround (qmul (specShapeTwoByte (qOfNat 26) (qOfNat 248) (qOfNat 20)) (qOfNat 10))) (qOfNat 10)) ∧
    (parseOBDResponse INITIAL_OBD_DATA (resp1 ['0', 'A'] 26)).fuelPressure =
      some (qmul (qOfNat 26) (qOfNat 3)) ∧
    (parseOBDResponse INITIAL_OBD_DATA (resp1 ['0', 'B'] 26)).boostPressure =
      some (qOfNat 26) ∧
    (parseOBDResponse INITIAL_OBD_DATA (resp2 ['1', '0'] 26 248)).mafRate =
      some (qdiv (qround (qmul (specShapeTwoByte (qOfNat 26) (qOfNat 248) (qOfNat 100)) (qOfNat 10))) (qOfNat 10)) ∧
    (parseOBDResponse INITIAL_OBD_DATA (resp1 ['0', 'F'] 26)).intakeAirTemp =
      some (specShapeTemp (qOfNat 26)) ∧
    (parseOBDResponse INITIAL_OBD_DATA (resp1 ['3', '3'] 26)).barometricPressure =
      some (qOfNat 26) ∧
    (parseOBDResponse INITIAL_OBD_DATA (resp1 ['5', 'C'] 26)).oilTemp =
      some (specShapeTemp (qOfNat 26)) ∧
    (parseOBDResponse INITIAL_OBD_DATA (resp1 ['4', '6'] 26)).ambientTemp =
      some (specShapeTemp (qOfNat 26)) ∧
    (parseOBDResponse INITIAL_OBD_DATA (resp1 ['6', '2'] 26)).actualTorque =
      some (qsub (qOfNat 26) (qOfNat 125)) ∧
    (parseOBDResponse INITIAL_OBD_DATA (resp2 ['6', '3'] 26 248)).referenceTorque =
      some (specShapeTwoByte (qOfNat 26) (qOfNat 248) (qOfNat 1)) ∧
    (parseOBDResponse INITIAL_OBD_DATA (resp1 ['4', '9'] 26)).acceleratorPosition =
      some (specShapePercent (qOfNat 26)) ∧
    (parseOBDResponse INITIAL_OBD_DATA (resp1 ['2', 'C'] 26)).egrCommanded =
      some (specShapePercent (qOfNat 26)) ∧
    (parseOBDResponse INITIAL_OBD_DATA (resp1 ['2', 'D'] 26)).egrError =
      some (qround (specShapeSigned (qOfNat 26))) ∧
    (parseOBDResponse INITIAL_OBD_DATA (resp2 ['4', '2'] 26 248)).batteryVoltage =
      some (qdiv (qround (specShapeTwoByte (qOfNat 26) (qOfNat 248) (qOfNat 100))) (qOfNat 10)) ∧
    (parseOBDResponse INITIAL_OBD_DATA (resp2 ['1', 'F'] 26 248)).runTime =
      some (specShapeTwoByte (qOfNat 26) (qOfNat 248) (qOfNat 1))) :=
  ⟨by decide, by decide, c5_amended INITIAL_OBD_DATA 26 248 (by decide) (by decide)⟩

/-- Witness for C2 (amended) at a concrete service with one subscriber. -/
theorem c2_amended_witness :
    SvcWF (subscribe svcInit 7) ∧
    (subscribe (subscribe svcInit 7) 8 =
        { subscribe svcInit 7 with
            listeners := (subscribe svcInit 7).listeners ++ [8]
            delivered := (subscribe svcInit 7).delivered ++ [(8, (subscribe svcInit 7).live)] } ∧
      (∀ p ∈ (notifyListeners (fun _ ls => ls) (subscribe svcInit 7)).delivered,
        p ∉ (subscribe svcInit 7).delivered →
        ((svcParse (fun _ ls => ls)
              (notifyListeners (fun _ ls => ls) (subscribe svcInit 7))
              ("410C1AF8".toList)).heap.getD p.2 INITIAL_OBD_DATA =
          (notifyListeners (fun _ ls => ls) (subscribe svcInit 7)).heap.getD p.2
            INITIAL_OBD_DATA))) :=
  ⟨⟨by decide, by decide⟩,
    c2_amended (subscribe svcInit 7) 8 (fun _ ls => ls) ("410C1AF8".toList)
      ⟨by decide, by decide⟩⟩
